import Mathlib

/-!
Verification development for the AutoOps task-orchestration engine.

The Python source is embedded shallowly: the data model of
`src/agents/state.py` (absent from the snapshot; modelled from the spec
and from its uses in the present files), the Operation Executor of
`src/agents/executor.py`, the plan validator of `src/agents/planner.py`,
the workflow graph of `src/agents/orchestrator.py`, and the queue,
store, submission, cancellation and task-execution logic of
`src/utils/task_manager.py`.  Machine time is a `Nat` parameter, the
resource backend and the plan generator are function parameters, and the
concurrency of `asyncio.gather` is modelled by an explicit completion
order (a list of task indices).
-/

namespace AutoOps

/-- Modelled from the spec: task lifecycle states (`TaskStatus` in the
absent `src/agents/state.py`; the members used by the present files are
pending/executing/completed/failed/cancelled, the spec adds
planning/validating). -/
inductive TaskStatus
  | pending
  | planning
  | validating
  | executing
  | completed
  | failed
  | cancelled
deriving DecidableEq, Repr

/-- `TaskPriority` of `src/utils/task_manager.py` (lines 23-28). -/
inductive TaskPriority
  | low
  | normal
  | high
  | critical
deriving DecidableEq, Repr

/-- The `.value` string of a `TaskPriority` member. -/
def TaskPriority.value : TaskPriority → String
  | .low => "low"
  | .normal => "normal"
  | .high => "high"
  | .critical => "critical"

/-- Modelled from the spec: one imperative action against the backend
(`KubernetesOperation` in the absent `src/agents/state.py`).  The
`action` and `resource_type` fields carry the enum token strings that
the present files compare against (`"CREATE"`, `"DELETE"`, ...,
`"namespace"`, `"deployment"`, ...); `manifest` is the opaque payload;
`parameters` is the auxiliary key/value data (only the `replicas`
entry, a number, is read by the executor). -/
structure KubernetesOperation where
  action : String
  resource_type : String
  resource_name : Option String := none
  ns : String := "default"
  manifest : Option String := none
  parameters : List (String × Nat) := []
deriving DecidableEq, Repr

/-- Modelled from the spec: outcome of attempting one operation
(`ExecutionResult` in the absent `src/agents/state.py`), per the fields
set by `src/agents/executor.py`. -/
structure ExecutionResult where
  operation : KubernetesOperation
  status : TaskStatus
  result : Option String := none
  error : Option String := none
  completed_at : Option Nat := none
  duration : Option Nat := none
deriving DecidableEq, Repr

/-- Modelled from the spec: an ordered plan of operations
(`ExecutionPlan` in the absent `src/agents/state.py`). -/
structure ExecutionPlan where
  description : String
  operations : List KubernetesOperation
  estimated_duration : Nat := 60
deriving DecidableEq, Repr

/-- Modelled from the spec: per-agent state (`AgentState` in the absent
`src/agents/state.py`), per the fields written by the present files. -/
structure AgentState where
  status : TaskStatus := .pending
  current_task : Option String := none
  last_action : Option String := none
  last_updated : Nat := 0
deriving DecidableEq, Repr

/-- Modelled from the spec: the workflow state (`AutoOpsState` in the
absent `src/agents/state.py`), per the fields read and written by the
present files. -/
structure AutoOpsState where
  request_id : String
  original_request : String
  current_step : String := "initialized"
  planner_state : AgentState := {}
  executor_state : AgentState := {}
  execution_plan : Option ExecutionPlan := none
  execution_results : List ExecutionResult := []
  errors : List String := []
  retry_count : Nat := 0
  updated_at : Nat := 0
deriving DecidableEq, Repr

/-- Modelled from the spec: `AutoOpsState.add_error` appends one
human-readable error string to the append-only `errors` list. -/
def AutoOpsState.add_error (s : AutoOpsState) (e : String) : AutoOpsState :=
  { s with errors := s.errors ++ [e] }

/-- `AutoOpsState.update_timestamp`, modelled from the spec: refreshes
`updated_at` with the current clock. -/
def AutoOpsState.update_timestamp (s : AutoOpsState) (now : Nat) : AutoOpsState :=
  { s with updated_at := now }

/-!  ## Operation Executor (`src/agents/executor.py`)  -/

/-- One call into the `KubernetesClient` resource backend, as dispatched
by `_execute_single_operation` (executor.py lines 140-183). -/
inductive BackendCall
  | create_resource (resource_type : String) (ns : String) (manifest : Option String)
  | update_resource (resource_type : String) (name : Option String) (ns : String) (manifest : Option String)
  | delete_resource (resource_type : String) (name : Option String) (ns : String)
  | scale_deployment (name : Option String) (ns : String) (replicas : Nat)
  | get_resource (resource_type : String) (name : Option String) (ns : String)
  | list_resources (resource_type : String) (ns : String)
  | patch_resource (resource_type : String) (name : Option String) (ns : String) (patch : Option String)
deriving DecidableEq, Repr

/-- The resource backend: either a success payload or a raised error
message (spec section 6, `apply(operation) -> OperationOutcome`). -/
def Backend : Type := BackendCall → Except String String

/-- `operation.parameters.get ("replicas", 1)` (executor.py line 160). -/
def replicasOf (op : KubernetesOperation) : Nat :=
  match op.parameters.lookup "replicas" with
  | some n => n
  | none => 1

/-- The dispatch of `_execute_single_operation` (executor.py lines
140-185): the action token selects the backend call; an unrecognized
token is `none` (the `raise ValueError` branch). -/
def dispatch (op : KubernetesOperation) : Option BackendCall :=
  if op.action = "CREATE" then
    some (.create_resource op.resource_type op.ns op.manifest)
  else if op.action = "UPDATE" then
    some (.update_resource op.resource_type op.resource_name op.ns op.manifest)
  else if op.action = "DELETE" then
    some (.delete_resource op.resource_type op.resource_name op.ns)
  else if op.action = "SCALE" then
    some (.scale_deployment op.resource_name op.ns (replicasOf op))
  else if op.action = "GET" then
    some (.get_resource op.resource_type op.resource_name op.ns)
  else if op.action = "LIST" then
    some (.list_resources op.resource_type op.ns)
  else if op.action = "PATCH" then
    some (.patch_resource op.resource_type op.resource_name op.ns op.manifest)
  else
    none

/-- One attempt of `_execute_single_operation` (executor.py lines
125-213), without the tenacity wrapper: success returns the completed
`ExecutionResult`; every failure (backend error or unsupported action)
re-raises its exception message. -/
def executeAttempt (backend : Backend) (now : Nat) (op : KubernetesOperation) :
    Except String ExecutionResult :=
  match dispatch op with
  | none => .error ("Unsupported operation: " ++ op.action)
  | some call =>
    match backend call with
    | .ok response =>
      .ok { operation := op, status := .completed, result := some response,
            completed_at := some now, duration := some 0 }
    | .error e => .error e

/-- `stop_after_attempt(3)` of the tenacity decorator on
`_execute_single_operation` (executor.py lines 121-124). -/
def retryStopAttempts : Nat := 3

/-- `wait_exponential(multiplier=1, min=4, max=10)` (executor.py line
123): the delay before retry number `n`. -/
def retryWait (n : Nat) : Nat := min (max (2 ^ n) 4) 10

/-- The tenacity retry loop around one attempt: the attempt outcome is
deterministic per call site, the loop stops at the first success or
after `fuel + 1` attempts, and it returns the outcome together with the
number of attempts made.  Tenacity retries on every raised exception. -/
def retryLoop (attempt : Except String ExecutionResult) :
    Nat → Except String ExecutionResult × Nat
  | 0 => (attempt, 1)
  | n + 1 =>
    match attempt with
    | .ok r => (.ok r, 1)
    | .error _ =>
      let p := retryLoop attempt n
      (p.1, p.2 + 1)

/-- `_execute_single_operation` as seen by its callers: up to
`retryStopAttempts` attempts, any exception retried. -/
def execute_single_operation (backend : Backend) (now : Nat)
    (op : KubernetesOperation) : Except String ExecutionResult × Nat :=
  retryLoop (executeAttempt backend now op) (retryStopAttempts - 1)

/-- One completion event of `asyncio.gather`: the coroutine with index
`i` finishes and its outcome is stored in slot `i`. -/
def gatherStep (outcomes : List (Except String ExecutionResult))
    (slots : List (Option (Except String ExecutionResult))) (i : Nat) :
    List (Option (Except String ExecutionResult)) :=
  match outcomes[i]? with
  | some v => slots.set i (some v)
  | none => slots

/-- `asyncio.gather(*tasks, return_exceptions=True)` (executor.py line
103): coroutine outcomes complete in an arbitrary `order`; each
completion fills its own slot, and the filled slots are read back in
index order. -/
def gatherFill (outcomes : List (Except String ExecutionResult))
    (order : List Nat) : List (Option (Except String ExecutionResult)) :=
  order.foldl (gatherStep outcomes) (List.replicate outcomes.length none)

/-- The `for i, result in enumerate(results)` loop of
`_execute_operations` (executor.py lines 106-117): an exception becomes
a failed `ExecutionResult` for the operation at the same position. -/
def wrapOutcome (op : KubernetesOperation) :
    Option (Except String ExecutionResult) → ExecutionResult
  | some (.ok r) => r
  | some (.error e) => { operation := op, status := .failed, error := some e }
  | none => { operation := op, status := .failed, error := none }

/-- `_execute_operations` (executor.py lines 93-119): run every
operation through `_execute_single_operation`, with completions arriving
in `order`, gather the outcomes and wrap exceptions positionally. -/
def execute_operations (backend : Backend) (now : Nat)
    (operations : List KubernetesOperation) (order : List Nat) :
    List ExecutionResult :=
  let outcomes := operations.map fun op =>
    (execute_single_operation backend now op).1
  let gathered := gatherFill outcomes order
  (operations.zip gathered).map fun p => wrapOutcome p.1 p.2

/-- The order-free sequential reading of one operation's recorded
result. -/
def sequentialResult (backend : Backend) (now : Nat)
    (op : KubernetesOperation) : ExecutionResult :=
  wrapOutcome op (some (execute_single_operation backend now op).1)

/-- `ExecutorAgent.execute` (executor.py lines 37-91). -/
def ExecutorAgent.execute (backend : Backend) (now : Nat)
    (order : List Nat) (state : AutoOpsState) : AutoOpsState :=
  match state.execution_plan with
  | none =>
    let s := { state with
      executor_state := { state.executor_state with status := .failed } }
    s.add_error "No execution plan available"
  | some plan =>
    let s := { state with
      executor_state := { state.executor_state with
        status := .executing,
        current_task := some "Executing Kubernetes operations",
        last_updated := now },
      current_step := "executing" }
    let results := execute_operations backend now plan.operations order
    let s := { s with execution_results := s.execution_results ++ results }
    let failed_operations := results.filter fun r => r.status = .failed
    let s :=
      if failed_operations.isEmpty then
        { s with executor_state := { s.executor_state with
            status := .completed,
            last_action := some ("Successfully executed " ++
              toString results.length ++ " operations"),
            last_updated := now } }
      else
        let s := { s with executor_state := { s.executor_state with
            status := .failed,
            last_action := some ("Execution failed: " ++
              toString failed_operations.length ++ " operations failed"),
            last_updated := now } }
        failed_operations.foldl
          (fun acc r => acc.add_error
            ("Operation failed: " ++ (r.error.getD "None"))) s
    s.update_timestamp now

/-- The compensating operation built by `rollback_operations`
(executor.py lines 223-228): a `DELETE` of the same resource. -/
def mkRollbackOp (r : ExecutionResult) : KubernetesOperation :=
  { action := "DELETE",
    resource_type := r.operation.resource_type,
    resource_name := r.operation.resource_name,
    ns := r.operation.ns }

/-- Is this recorded result reversible (executor.py line 221): completed
and its operation was a `CREATE`? -/
def reversible (r : ExecutionResult) : Bool :=
  r.status = TaskStatus.completed && r.operation.action = "CREATE"

/-- One rollback application (executor.py lines 230-240): run the
compensating delete through `_execute_single_operation`; a raised
exception is recorded as a failed result rather than propagated. -/
def rollbackApply (backend : Backend) (now : Nat)
    (op : KubernetesOperation) : ExecutionResult :=
  match (execute_single_operation backend now op).1 with
  | .ok r => r
  | .error e =>
    { operation := op, status := .failed,
      error := some ("Rollback failed: " ++ e) }

/-- The `for result in reversed(results)` walk of `rollback_operations`
(executor.py lines 220-240). -/
def rollbackWalk (backend : Backend) (now : Nat) :
    List ExecutionResult → List ExecutionResult
  | [] => []
  | r :: rest =>
    if reversible r then
      rollbackApply backend now (mkRollbackOp r) :: rollbackWalk backend now rest
    else
      rollbackWalk backend now rest

/-- `ExecutorAgent.rollback_operations` (executor.py lines 215-242). -/
def rollback_operations (backend : Backend) (now : Nat)
    (results : List ExecutionResult) : List ExecutionResult :=
  rollbackWalk backend now results.reverse

/-!  ## Plan validation (`src/agents/planner.py`)  -/

/-- The truthiness test `if op.resource_name:` on an optional string
(planner.py line 209): present and non-empty. -/
def nameTruthy (op : KubernetesOperation) : Bool :=
  match op.resource_name with
  | some s => s ≠ ""
  | none => false

/-- The conflict key `f"{op.namespace}/{op.resource_type}/{op.resource_name}"`
(planner.py line 210). -/
def opKey (op : KubernetesOperation) : String :=
  op.ns ++ "/" ++ op.resource_type ++ "/" ++ op.resource_name.getD "None"

/-- Guard of the duplicate-creation pass (planner.py line 209): a
`CREATE` with a truthy resource name. -/
def createWithName (op : KubernetesOperation) : Bool :=
  op.action = "CREATE" && nameTruthy op

/-- The first pass of `validate_plan` (planner.py lines 206-213): walk
the operations keeping the set of conflict keys seen so far; a key seen
again yields one issue. -/
def validateDups : List KubernetesOperation → List String → List String
  | [], _ => []
  | op :: rest, seen =>
    if createWithName op then
      if opKey op ∈ seen then
        ("Duplicate resource creation: " ++ opKey op) ::
          validateDups rest (opKey op :: seen)
      else
        validateDups rest (opKey op :: seen)
    else
      validateDups rest seen

/-- `ns_created` of the second pass (planner.py lines 219-224): some
operation anywhere in the plan creates a namespace whose resource name
equals this operation's namespace. -/
def nsCreated (ops : List KubernetesOperation) (op : KubernetesOperation) : Bool :=
  ops.any fun o =>
    o.action = "CREATE" && o.resource_type = "namespace" &&
      o.resource_name = some op.ns

/-- The issue the second pass of `validate_plan` raises for one
operation (planner.py lines 216-226): a `CREATE` of a non-namespace
resource in a non-default namespace that is not created anywhere in the
plan. -/
def nsIssueFor (ops : List KubernetesOperation) (op : KubernetesOperation) :
    Option String :=
  if op.action = "CREATE" && op.resource_type ≠ "namespace" then
    if op.ns ≠ "default" && !nsCreated ops op then
      some ("Namespace " ++ op.ns ++ " not created before use")
    else
      none
  else
    none

/-- The second pass of `validate_plan` (planner.py lines 216-226). -/
def nsIssues (ops : List KubernetesOperation) : List String :=
  ops.filterMap (nsIssueFor ops)

/-- `PlannerAgent.validate_plan` (planner.py lines 202-228). -/
def validate_plan (plan : ExecutionPlan) : List String :=
  validateDups plan.operations [] ++ nsIssues plan.operations

/-!  ## Workflow graph (`src/agents/orchestrator.py`)  -/

/-- The number of task-level retries allowed,
`settings.retry_max_attempts` (config/settings.py, default 3). -/
def retry_max_attempts : Nat := 3

/-- `AutoOpsOrchestrator._validator_node` (orchestrator.py lines
136-160). -/
def validator_node (state : AutoOpsState) : AutoOpsState :=
  match state.execution_plan with
  | none => state.add_error "No execution plan to validate"
  | some plan =>
    let issues := validate_plan plan
    if issues.isEmpty then
      { state with current_step := "validated" }
    else
      state.add_error ("Plan validation issues: " ++
        String.intercalate "; " issues)

/-- `AutoOpsOrchestrator._error_handler_node` (orchestrator.py lines
162-186). -/
def error_handler_node (state : AutoOpsState) : AutoOpsState :=
  if state.retry_count < retry_max_attempts then
    { state with
      retry_count := state.retry_count + 1,
      current_step := "retrying",
      planner_state := { state.planner_state with status := .pending },
      executor_state := { state.executor_state with status := .pending } }
  else
    { state with current_step := "failed" }

/-- `AutoOpsOrchestrator._should_execute` (orchestrator.py lines
188-195). -/
def should_execute (state : AutoOpsState) : String :=
  if state.planner_state.status = .failed then "error"
  else if state.planner_state.status = .completed ∧
      state.execution_plan ≠ none then "execute"
  else "end"

/-- `AutoOpsOrchestrator._should_proceed_with_execution`
(orchestrator.py lines 197-204). -/
def should_proceed_with_execution (state : AutoOpsState) : String :=
  if ¬state.errors.isEmpty then "error"
  else if state.current_step = "validated" then "execute"
  else "end"

/-- `AutoOpsOrchestrator._check_execution_result` (orchestrator.py
lines 206-216). -/
def check_execution_result (state : AutoOpsState) : String :=
  if state.executor_state.status = .failed then
    if state.retry_count < retry_max_attempts then "retry" else "error"
  else if state.executor_state.status = .completed then "success"
  else "error"

/-- The nodes of the LangGraph graph built by `_create_workflow`
(orchestrator.py lines 43-89), plus its `END` sentinel. -/
inductive WFNode
  | planner
  | validator
  | executor
  | error_handler
  | terminal
deriving DecidableEq, Repr

/-- One step of the compiled graph (orchestrator.py lines 43-89): run
the current node's function on the state, then follow the conditional
edge chosen by the routing function; `error_handler` has the single
unconditional edge to `END`.  The planner and executor node bodies are
parameters (the planner wraps the external Plan Generator; the executor
is `ExecutorAgent.execute`). -/
def wfStep (plannerF executorF : AutoOpsState → AutoOpsState) :
    WFNode × AutoOpsState → WFNode × AutoOpsState
  | (.planner, s) =>
    let s := plannerF s
    match should_execute s with
    | "execute" => (.validator, s)
    | "error" => (.error_handler, s)
    | _ => (.terminal, s)
  | (.validator, s) =>
    let s := validator_node s
    match should_proceed_with_execution s with
    | "execute" => (.executor, s)
    | "error" => (.error_handler, s)
    | _ => (.terminal, s)
  | (.executor, s) =>
    let s := executorF s
    match check_execution_result s with
    | "success" => (.terminal, s)
    | "retry" => (.executor, s)
    | _ => (.error_handler, s)
  | (.error_handler, s) => (.terminal, error_handler_node s)
  | (.terminal, s) => (.terminal, s)

/-- Run the graph from the entry point `planner` for at most `fuel`
steps (the graph has no cycle through `error_handler`, so a small fuel
reaches `END` on the paths of interest). -/
def wfRun (plannerF executorF : AutoOpsState → AutoOpsState)
    (fuel : Nat) (s : AutoOpsState) : WFNode × AutoOpsState :=
  Nat.rec (motive := fun _ => WFNode × AutoOpsState)
    (WFNode.planner, s)
    (fun _ acc => wfStep plannerF executorF acc) fuel

/-!  ## Task Manager (`src/utils/task_manager.py`)  -/

/-- The `Task` record of task_manager.py (lines 31-53), with the fields
its methods read and write (`callback` and the in-memory `result` are
dropped: they are not serialized and no claim reads them). -/
structure TaskRec where
  task_id : String
  request : String
  priority : TaskPriority := .normal
  status : TaskStatus := .pending
  timeout : Nat := 300
  created_at : Nat := 0
  started_at : Option Nat := none
  completed_at : Option Nat := none
  error : Option String := none
  retry_count : Nat := 0
deriving DecidableEq, Repr

/-- The durable store as the Task Manager sees it: `unavailable` is
`redis_client is None` (the constructor's fallback, task_manager.py
lines 102-114); `failing` is a client whose every call raises (each
call site swallows the exception); `available` is a working key-value
map. -/
inductive Store
  | unavailable
  | failing
  | available (kv : List (String × TaskRec))
deriving DecidableEq, Repr

/-- The Redis key `f"autoops:task:{task_id}"` (task_manager.py line
326). -/
def taskKey (task_id : String) : String := "autoops:task:" ++ task_id

/-- `TaskManager._persist_task` (task_manager.py lines 321-332): write
the record under its key; without a client, or on a raised error,
nothing is stored anywhere (the except branch only passes). -/
def persist_task (store : Store) (task : TaskRec) : Store :=
  match store with
  | .unavailable => .unavailable
  | .failing => .failing
  | .available kv =>
    .available ((taskKey task.task_id, task) ::
      kv.filter fun p => p.1 ≠ taskKey task.task_id)

/-- `TaskManager._load_task` (task_manager.py lines 334-343): read the
record under the key; without a client, on a raised error, or with no
data, the result is `None`. -/
def load_task (store : Store) (task_id : String) : Option TaskRec :=
  match store with
  | .unavailable => none
  | .failing => none
  | .available kv => kv.lookup (taskKey task_id)

/-- The mutable Task Manager state used by the claims: the durable
store, the plain-FIFO `asyncio.Queue` of `(priority.value, task)` pairs
(task_manager.py line 97), and the `running_tasks` map of in-flight
execution tasks, kept as the list of its keys. -/
structure TMState where
  store : Store
  task_queue : List (String × TaskRec) := []
  running_tasks : List String := []
deriving DecidableEq, Repr

/-- `TaskManager.submit_task` (task_manager.py lines 151-177): build a
pending task, persist it, enqueue `(priority.value, task)` at the back
of the FIFO queue, and return the task id. -/
def submit_task (st : TMState) (request : String) (priority : TaskPriority)
    (task_id : String) (timeout : Nat) (now : Nat) : String × TMState :=
  let task : TaskRec :=
    { task_id := task_id, request := request, priority := priority,
      status := .pending, timeout := timeout, created_at := now }
  let store := persist_task st.store task
  (task_id,
    { st with
      store := store,
      task_queue := st.task_queue ++ [(priority.value, task)] })

/-- `await self.task_queue.get()` as performed by a worker
(task_manager.py lines 228-229): `asyncio.Queue` is plain FIFO, the
head of the list is returned whatever the priority strings say. -/
def queue_get (st : TMState) : Option ((String × TaskRec) × TMState) :=
  match st.task_queue with
  | [] => none
  | x :: rest => some (x, { st with task_queue := rest })

/-- The dequeue order of the FIFO queue when workers take tasks one at
a time until it is empty: exactly the queue's list front to back. -/
def drainQueue (st : TMState) : List (String × TaskRec) :=
  st.task_queue

/-- The priority rank the spec's scheduling contract orders by:
critical above high above normal above low. -/
def priorityRank : TaskPriority → Nat
  | .low => 0
  | .normal => 1
  | .high => 2
  | .critical => 3

/-- `TaskManager.get_task_status` (task_manager.py lines 179-182):
load the record; `None` when nothing loads. -/
def get_task_status (st : TMState) (task_id : String) : Option TaskRec :=
  load_task st.store task_id

/-- `TaskManager.cancel_task` (task_manager.py lines 184-199): first
cancel and drop any in-flight execution task under this id; then load
the record, and if one loads, mark it cancelled, stamp `completed_at`,
persist, and return `True`; return `False` only when nothing loads. -/
def cancel_task (st : TMState) (task_id : String) (now : Nat) :
    Bool × TMState :=
  let st := { st with
    running_tasks := st.running_tasks.filter fun i => i ≠ task_id }
  match load_task st.store task_id with
  | some task =>
    let task := { task with status := .cancelled, completed_at := some now }
    (true, { st with store := persist_task st.store task })
  | none => (false, st)

/-- The outcome of `asyncio.wait_for(orchestrator.process_request ...)`
inside `_execute_task` (task_manager.py lines 264-268): the workflow
run returned a final state, or the watchdog expired first and cancelled
the run (`asyncio.TimeoutError`), or the run raised. -/
inductive RunOutcome
  | ok (result : AutoOpsState)
  | timeout
  | exn (msg : String)
deriving DecidableEq, Repr

/-- `TaskManager._execute_task` (task_manager.py lines 252-299): mark
the task executing, then fold the awaited outcome into the record;
a timeout marks it failed with the timeout error and nothing is
re-queued or retried. -/
def execute_task (task : TaskRec) (outcome : RunOutcome)
    (t_start t_end : Nat) : TaskRec :=
  let task := { task with status := .executing, started_at := some t_start }
  match outcome with
  | .ok _ =>
    { task with status := .completed, completed_at := some t_end }
  | .timeout =>
    { task with
      status := .failed,
      error := some ("Task timed out after " ++ toString task.timeout ++
        " seconds"),
      completed_at := some t_end }
  | .exn e =>
    { task with
      status := .failed,
      error := some e,
      completed_at := some t_end }

/-!  ## Spec-side definitions and shared fixtures  -/

/-- The conflict keys of the creations the first validation pass
tracks. -/
def createKeys (ops : List KubernetesOperation) : List String :=
  (ops.filter createWithName).map opKey

/-- Clause (b) of claim C6 in the spec's words: some operation uses a
non-default namespace that is not created earlier in the same plan by a
create-namespace operation (`pre` accumulates the earlier operations). -/
def specUsesUncreatedNamespace :
    List KubernetesOperation → List KubernetesOperation → Bool
  | _, [] => false
  | pre, op :: rest =>
    (op.ns ≠ "default" && !(pre.any fun o =>
      o.action = "CREATE" && o.resource_type = "namespace" &&
        o.resource_name = some op.ns)) ||
    specUsesUncreatedNamespace (pre ++ [op]) rest

/-- A backend whose every call succeeds, for concrete evaluations. -/
def backend0 : Backend := fun _ => Except.ok "ok"

/-- A backend whose every call raises, for concrete evaluations. -/
def backendFail : Backend := fun _ => Except.error "connection refused"

/-!  ## Helper lemmas  -/

/-- The retry loop's surfaced outcome is the (deterministic) attempt's
outcome, whatever the attempt budget. -/
theorem retryLoop_fst (a : Except String ExecutionResult) :
    ∀ n, (retryLoop a n).1 = a := by
  intro n
  induction n with
  | zero => rfl
  | succ n ih =>
    unfold retryLoop
    cases a with
    | ok r => rfl
    | error e => simpa using ih

/-- A successful attempt is made exactly once. -/
theorem retryLoop_snd_ok (r : ExecutionResult) :
    ∀ n, (retryLoop (Except.ok r) n).2 = 1 := by
  intro n
  cases n <;> rfl

/-- A failing attempt is repeated until the budget is exhausted. -/
theorem retryLoop_snd_error (e : String) :
    ∀ n, (retryLoop (Except.error e) n).2 = n + 1 := by
  intro n
  induction n with
  | zero => rfl
  | succ n ih =>
    unfold retryLoop
    simpa using ih

/-- `_execute_single_operation`'s surfaced outcome is its one-attempt
outcome. -/
theorem execute_single_operation_fst (backend : Backend) (now : Nat)
    (op : KubernetesOperation) :
    (execute_single_operation backend now op).1 = executeAttempt backend now op :=
  retryLoop_fst _ _

/-- A successful attempt carries the attempted operation. -/
theorem executeAttempt_ok_operation (backend : Backend) (now : Nat)
    (op : KubernetesOperation) (r : ExecutionResult)
    (h : executeAttempt backend now op = Except.ok r) : r.operation = op := by
  cases hd : dispatch op with
  | none => simp [executeAttempt, hd] at h
  | some call =>
    cases hb : backend call with
    | ok response =>
      simp [executeAttempt, hd, hb] at h
      rw [← h]
    | error e => simp [executeAttempt, hd, hb] at h

/-- The sequential (order-free) reading of one operation's recorded
result carries that operation. -/
theorem sequentialResult_operation (backend : Backend) (now : Nat)
    (op : KubernetesOperation) :
    (sequentialResult backend now op).operation = op := by
  unfold sequentialResult wrapOutcome
  rw [execute_single_operation_fst]
  cases h : executeAttempt backend now op with
  | ok r => simpa using executeAttempt_ok_operation backend now op r h
  | error e => rfl

/-- One gather completion preserves the number of slots. -/
theorem gatherStep_length (outcomes : List (Except String ExecutionResult))
    (slots : List (Option (Except String ExecutionResult))) (i : Nat) :
    (gatherStep outcomes slots i).length = slots.length := by
  unfold gatherStep
  cases outcomes[i]? <;> simp

/-- After any run of completions, slot `i` holds outcome `i` exactly
when completion `i` occurred somewhere in the run. -/
theorem foldl_gatherStep_getElem (outcomes : List (Except String ExecutionResult))
    (order : List Nat) :
    ∀ (slots : List (Option (Except String ExecutionResult))),
      slots.length = outcomes.length →
      ∀ (i : Nat) (v : Except String ExecutionResult), outcomes[i]? = some v →
        (order.foldl (gatherStep outcomes) slots)[i]? =
          if i ∈ order then some (some v) else slots[i]? := by
  induction order with
  | nil => intro slots _ i v _; simp
  | cons j rest ih =>
    intro slots hlen i v hv
    have hstep : (gatherStep outcomes slots j).length = outcomes.length := by
      rw [gatherStep_length]; exact hlen
    have hi : i < slots.length := by
      rcases List.getElem?_eq_some.1 hv with ⟨h', _⟩
      rw [hlen]; exact h'
    rw [List.foldl_cons, ih (gatherStep outcomes slots j) hstep i v hv]
    by_cases hmem : i ∈ rest
    · simp [hmem, List.mem_cons]
    · by_cases hij : j = i
      · have hset : (gatherStep outcomes slots j)[i]? = some (some v) := by
          unfold gatherStep
          rw [hij, hv]
          exact List.getElem?_set_eq_of_lt (some v) hi
        rw [hij] at hset
        simp [hmem, hij, hset, List.mem_cons]
      · have hkeep : (gatherStep outcomes slots j)[i]? = slots[i]? := by
          unfold gatherStep
          cases outcomes[j]? with
          | none => rfl
          | some w => exact List.getElem?_set_ne hij
        simp [hmem, hij, hkeep, List.mem_cons, Ne.symm hij]

/-- When every coroutine completes exactly once, in whatever order, the
gathered slots read back as the outcomes in submission order. -/
theorem gatherFill_perm (outcomes : List (Except String ExecutionResult))
    (order : List Nat) (h : order.Perm (List.range outcomes.length)) :
    gatherFill outcomes order = outcomes.map some := by
  apply List.ext_getElem?
  intro i
  by_cases hi : i < outcomes.length
  · have hv : outcomes[i]? = some outcomes[i] := List.getElem?_eq_getElem hi
    have hmem : i ∈ order := h.mem_iff.2 (List.mem_range.2 hi)
    unfold gatherFill
    rw [foldl_gatherStep_getElem outcomes order _ (by simp) i outcomes[i] hv]
    simp [hmem, List.getElem?_map, hv]
  · have hfold : ∀ (o : List Nat) (slots : List (Option (Except String ExecutionResult))),
        (o.foldl (gatherStep outcomes) slots).length = slots.length := by
      intro o
      induction o with
      | nil => intro slots; rfl
      | cons a rest ihr => intro slots; rw [List.foldl_cons, ihr, gatherStep_length]
    have h1 : (gatherFill outcomes order).length = outcomes.length := by
      unfold gatherFill
      rw [hfold, List.length_replicate]
    rw [List.getElem?_eq_none, List.getElem?_eq_none]
    · simpa using Nat.le_of_not_lt hi
    · rw [h1]; exact Nat.le_of_not_lt hi

/-- Zipping the operations with their own gathered outcomes and
wrapping positionally is the plain per-operation map. -/
theorem zip_map_wrap (f : KubernetesOperation → Except String ExecutionResult) :
    ∀ ops : List KubernetesOperation,
      ((ops.zip ((ops.map f).map some)).map fun p => wrapOutcome p.1 p.2) =
        ops.map fun op => wrapOutcome op (some (f op)) := by
  intro ops
  induction ops with
  | nil => rfl
  | cons op rest ih => simp only [List.map_cons, List.zip_cons_cons, ih]

/-- The rollback walk is the filtered map over reversible entries. -/
theorem rollbackWalk_eq (backend : Backend) (now : Nat) :
    ∀ l : List ExecutionResult,
      rollbackWalk backend now l =
        (l.filter reversible).map
          fun r => rollbackApply backend now (mkRollbackOp r) := by
  intro l
  induction l with
  | nil => rfl
  | cons r rest ih =>
    by_cases h : reversible r
    · simp [rollbackWalk, List.filter_cons, h, ih]
    · simp [rollbackWalk, List.filter_cons, h, ih]

/-- A rollback application records a result for exactly the
compensating operation it was given. -/
theorem rollbackApply_operation (backend : Backend) (now : Nat)
    (op : KubernetesOperation) :
    (rollbackApply backend now op).operation = op := by
  unfold rollbackApply
  rw [execute_single_operation_fst]
  cases h : executeAttempt backend now op with
  | ok r => simpa using executeAttempt_ok_operation backend now op r h
  | error e => rfl

/-- The duplicate-creation pass reports nothing exactly when the
creation keys are distinct among themselves and fresh over `seen`. -/
theorem validateDups_eq_nil (ops : List KubernetesOperation) :
    ∀ seen : List String,
      validateDups ops seen = [] ↔
        (createKeys ops).Nodup ∧ ∀ k ∈ createKeys ops, k ∉ seen := by
  induction ops with
  | nil => intro seen; simp [validateDups, createKeys]
  | cons op rest ih =>
    intro seen
    by_cases hc : createWithName op
    · have hkeys : createKeys (op :: rest) = opKey op :: createKeys rest := by
        simp [createKeys, List.filter_cons, hc]
      by_cases hs : opKey op ∈ seen
      · rw [hkeys]
        simp only [validateDups, hc, if_pos hs, if_true, reduceIte]
        constructor
        · intro h; exact absurd h (by simp)
        · rintro ⟨-, hall⟩
          exact absurd hs (hall (opKey op) (List.mem_cons_self _ _))
      · rw [hkeys]
        simp only [validateDups, hc, if_neg hs, if_true, reduceIte]
        rw [ih (opKey op :: seen)]
        constructor
        · rintro ⟨hnd, hall⟩
          refine ⟨List.nodup_cons.2 ⟨fun hmem => ?_, hnd⟩, ?_⟩
          · exact (hall _ hmem) (List.mem_cons_self _ _)
          · intro k hk
            rcases List.mem_cons.1 hk with rfl | hk'
            · exact hs
            · intro hkseen
              exact hall k hk' (List.mem_cons.2 (Or.inr hkseen))
        · rintro ⟨hnd, hall⟩
          rcases List.nodup_cons.1 hnd with ⟨hnotin, hnd'⟩
          refine ⟨hnd', fun k hk hmem => ?_⟩
          rcases List.mem_cons.1 hmem with rfl | hkseen
          · exact hnotin hk
          · exact hall k (List.mem_cons.2 (Or.inr hk)) hkseen
    · have hkeys : createKeys (op :: rest) = createKeys rest := by
        simp [createKeys, List.filter_cons, hc]
      rw [hkeys]
      simp only [validateDups, hc, if_false, reduceIte]
      exact ih seen

/-- The namespace pass reports nothing exactly when every non-namespace
creation in a non-default namespace has that namespace created
somewhere in the plan. -/
theorem nsIssues_eq_nil (ops : List KubernetesOperation) :
    nsIssues ops = [] ↔
      ∀ op ∈ ops, op.action = "CREATE" → op.resource_type ≠ "namespace" →
        op.ns ≠ "default" → nsCreated ops op = true := by
  unfold nsIssues
  rw [List.filterMap_eq_nil_iff]
  constructor
  · intro h op hmem ha ht hn
    have := h op hmem
    unfold nsIssueFor at this
    by_cases hcreated : nsCreated ops op
    · exact hcreated
    · simp [ha, ht, hn, hcreated] at this
  · intro h op hmem
    unfold nsIssueFor
    by_cases ha : op.action = "CREATE"
    · by_cases ht : op.resource_type = "namespace"
      · simp [ha, ht]
      · by_cases hn : op.ns = "default"
        · simp [ha, ht, hn]
        · simp [ha, ht, hn, h op hmem ha ht hn]
    · simp [ha]

/-!  ## The claims  -/

/-- C3: for every list of operations given to the Operation Executor,
the returned list has exactly one ExecutionResult per input operation,
positioned in the original submission order, regardless of the order in
which the backend calls complete: any complete completion order yields
the order-free sequential reading, the lengths agree, and the result in
position `i` is for the operation in position `i`. -/
theorem claim3_results_in_submission_order (backend : Backend) (now : Nat)
    (ops : List KubernetesOperation) (order : List Nat)
    (h : order.Perm (List.range ops.length)) :
    execute_operations backend now ops order =
      ops.map (sequentialResult backend now) ∧
    (execute_operations backend now ops order).length = ops.length ∧
    ∀ i : Nat,
      (execute_operations backend now ops order)[i]?.map
        (fun r => r.operation) = ops[i]? := by
  have hperm : order.Perm (List.range
      (ops.map fun op => (execute_single_operation backend now op).1).length) := by
    simpa using h
  have hmain : execute_operations backend now ops order =
      ops.map (sequentialResult backend now) := by
    simp only [execute_operations]
    rw [gatherFill_perm _ _ hperm]
    exact zip_map_wrap _ ops
  refine ⟨hmain, by rw [hmain, List.length_map], ?_⟩
  intro i
  rw [hmain, List.getElem?_map, Option.map_map]
  cases hi : ops[i]? with
  | none => rfl
  | some op => simp [Function.comp, sequentialResult_operation]

/-- The three operations of the spec's result-ordering scenario. -/
def c3_ops : List KubernetesOperation :=
  [{ action := "CREATE", resource_type := "deployment",
     resource_name := some "a" },
   { action := "CREATE", resource_type := "service",
     resource_name := some "b" },
   { action := "GET", resource_type := "pod",
     resource_name := some "c" }]

/-- C3 witness: a plan `[A, B, C]` whose backend completions arrive in
latency order `C`, `A`, `B` still reports results in order
`[A, B, C]`. -/
theorem claim3_witness :
    execute_operations backend0 0 c3_ops [2, 0, 1] =
      c3_ops.map (sequentialResult backend0 0) :=
  (claim3_results_in_submission_order backend0 0 c3_ops [2, 0, 1]
    (by decide)).1

/-- C4: rollback walks the recorded results in reverse order; for
exactly the completed `CREATE` entries it applies a compensating
`DELETE` of the same resource and records one ExecutionResult each, and
a failing compensation (recorded, not raised) never stops the walk:
the output is the full map over the reversed filtered entries, whatever
the backend answers. -/
theorem claim4_rollback_reverse_compensation (backend : Backend) (now : Nat)
    (results : List ExecutionResult) :
    rollback_operations backend now results =
      (results.reverse.filter reversible).map
        (fun r => rollbackApply backend now (mkRollbackOp r)) ∧
    (rollback_operations backend now results).length =
      (results.reverse.filter reversible).length ∧
    ∀ i : Nat,
      (rollback_operations backend now results)[i]?.map
        (fun r => r.operation) =
        ((results.reverse.filter reversible)[i]?).map mkRollbackOp := by
  have hmain : rollback_operations backend now results =
      (results.reverse.filter reversible).map
        (fun r => rollbackApply backend now (mkRollbackOp r)) :=
    rollbackWalk_eq backend now results.reverse
  refine ⟨hmain, by rw [hmain, List.length_map], ?_⟩
  intro i
  rw [hmain, List.getElem?_map, Option.map_map]
  cases hi : (results.reverse.filter reversible)[i]? with
  | none => rfl
  | some r => simp [Function.comp, rollbackApply_operation]

/-- C1: the admission queue is a plain FIFO `asyncio.Queue`, so after
submitting a `low` task and then a `critical` task, one-at-a-time
dequeues hand out the `low` task first, although the waiting `critical`
task outranks it — the code evaluated at this input contradicts the
claimed strict priority-order dequeue. -/
theorem claim1_fifo_dequeue_ignores_priority :
    (drainQueue (submit_task
        (submit_task { store := Store.unavailable } "cleanup logs"
          TaskPriority.low "t1" 300 0).2
        "mitigate outage" TaskPriority.critical "t2" 300 1).2).map
      (fun p => (p.1, p.2.task_id)) =
      [("low", "t1"), ("critical", "t2")] ∧
    priorityRank TaskPriority.critical > priorityRank TaskPriority.low ∧
    (queue_get (submit_task
        (submit_task { store := Store.unavailable } "cleanup logs"
          TaskPriority.low "t1" 300 0).2
        "mitigate outage" TaskPriority.critical "t2" 300 1).2).map
      (fun p => p.1.2.priority) = some TaskPriority.low := by
  refine ⟨rfl, by decide, rfl⟩

/-- A Plan Generator that fails on every call, as the planner node sees
it: the returned state carries a failed planner status. -/
def failing_plan_generator (s : AutoOpsState) : AutoOpsState :=
  { s with planner_state := { s.planner_state with status := .failed } }

/-- The initial workflow state `process_request` builds
(orchestrator.py lines 99-102). -/
def c2_initial : AutoOpsState :=
  { request_id := "req-2", original_request := "deploy nginx" }

/-- C2: with a Plan Generator that fails on every call, the workflow
graph routes planner → error_handler → END: the run terminates after a
single retry increment, so `retry_count` ends at 1 — not at
`retry_max_attempts = 3` — and the final step is `"retrying"`, not
`"failed"`; extra fuel does not change the terminal state. -/
theorem claim2_error_handler_ends_run :
    (wfRun failing_plan_generator id 5 c2_initial).1 = WFNode.terminal ∧
    (wfRun failing_plan_generator id 5 c2_initial).2.retry_count = 1 ∧
    (wfRun failing_plan_generator id 5 c2_initial).2.current_step =
      "retrying" ∧
    retry_max_attempts = 3 ∧
    wfRun failing_plan_generator id 50 c2_initial =
      wfRun failing_plan_generator id 5 c2_initial := by
  refine ⟨rfl, rfl, rfl, rfl, rfl⟩

/-- An operation whose action token names no supported backend call. -/
def restart_op : KubernetesOperation :=
  { action := "RESTART", resource_type := "deployment",
    resource_name := some "web" }

/-- C5 counterexample: an unrecognized action is attempted 3 times by
the tenacity wrapper (which retries every exception) before failing —
not zero retries as the claim states. -/
theorem claim5_counterexample :
    dispatch restart_op = none ∧
    (execute_single_operation backend0 0 restart_op).2 = 3 ∧
    (execute_single_operation backend0 0 restart_op).1 =
      Except.error "Unsupported operation: RESTART" ∧
    (execute_single_operation backend0 0 restart_op).2 ≠ 1 := by
  refine ⟨rfl, rfl, rfl, by decide⟩

/-- C5 as amended: an unrecognized action fails as an unsupported
operation, but the per-operation retry (3 attempts, exponential
backoff) applies to every raised exception alike — a successful attempt
runs once, and every failing attempt, unsupported action included, is
repeated to the full attempt budget. -/
theorem claim5_retry_covers_all_exceptions (backend : Backend) (now : Nat)
    (op : KubernetesOperation) :
    (execute_single_operation backend now op).1 =
      executeAttempt backend now op ∧
    (∀ r, executeAttempt backend now op = Except.ok r →
      (execute_single_operation backend now op).2 = 1) ∧
    (∀ e, executeAttempt backend now op = Except.error e →
      (execute_single_operation backend now op).2 = retryStopAttempts) ∧
    (dispatch op = none →
      (execute_single_operation backend now op).1 =
        Except.error ("Unsupported operation: " ++ op.action) ∧
      (execute_single_operation backend now op).2 = retryStopAttempts) := by
  refine ⟨execute_single_operation_fst backend now op, ?_, ?_, ?_⟩
  · intro r hr
    unfold execute_single_operation
    rw [hr]
    exact retryLoop_snd_ok r _
  · intro e he
    unfold execute_single_operation
    rw [he]
    exact retryLoop_snd_error e _
  · intro hd
    have he : executeAttempt backend now op =
        Except.error ("Unsupported operation: " ++ op.action) := by
      unfold executeAttempt
      rw [hd]
    constructor
    · rw [execute_single_operation_fst, he]
    · unfold execute_single_operation
      rw [he]
      exact retryLoop_snd_error _ _

/-- C5 witness for the amended claim, at the unsupported action: the
surfaced failure is the unsupported-operation error and the attempt
count is the full budget. -/
theorem claim5_amended_witness :
    (execute_single_operation backend0 7 restart_op).1 =
      Except.error ("Unsupported operation: " ++ restart_op.action) ∧
    (execute_single_operation backend0 7 restart_op).2 =
      retryStopAttempts :=
  (claim5_retry_covers_all_exceptions backend0 7 restart_op).2.2.2 rfl

/-- A plan whose only operation updates a deployment in the uncreated
non-default namespace `prod`. -/
def c6_bad_plan : ExecutionPlan :=
  { description := "update web",
    operations := [{
      action := "UPDATE",
      resource_type := "deployment",
      resource_name := some "web",
      ns := "prod" }] }

/-- C6 counterexample: the claim requires an issue for every operation
using a non-default namespace not created earlier in the plan, but the
validator only inspects `CREATE` operations: this `UPDATE` in the
uncreated namespace `prod` passes validation with zero issues. -/
theorem claim6_counterexample :
    validate_plan c6_bad_plan = [] ∧
    specUsesUncreatedNamespace [] c6_bad_plan.operations = true := by
  refine ⟨rfl, rfl⟩

/-- C6 as amended: validation reports an issue iff either two `CREATE`
operations carrying a resource name share the same
namespace/resource-type/resource-name conflict key, or a `CREATE` of a
non-namespace resource uses a non-default namespace that no
`CREATE namespace` operation anywhere in the plan (before or after)
creates; zero issues set the step to `validated`, which proceeds to
Execute when no prior errors exist, and any issues are appended to the
task's errors as one joined entry. -/
theorem claim6_validation_characterization (plan : ExecutionPlan)
    (s : AutoOpsState) :
    (validate_plan plan = [] ↔
      (createKeys plan.operations).Nodup ∧
      ∀ op ∈ plan.operations, op.action = "CREATE" →
        op.resource_type ≠ "namespace" → op.ns ≠ "default" →
        nsCreated plan.operations op = true) ∧
    (s.execution_plan = some plan → s.errors = [] → validate_plan plan = [] →
      should_proceed_with_execution (validator_node s) = "execute") ∧
    (s.execution_plan = some plan → validate_plan plan ≠ [] →
      validator_node s = s.add_error ("Plan validation issues: " ++
        String.intercalate "; " (validate_plan plan))) := by
  refine ⟨?_, ?_, ?_⟩
  · unfold validate_plan
    rw [List.append_eq_nil, validateDups_eq_nil, nsIssues_eq_nil]
    simp
  · intro hplan herr hval
    simp [validator_node, hplan, hval, should_proceed_with_execution, herr]
  · intro hplan hne
    have hfalse : (validate_plan plan).isEmpty = false := by
      cases hv : validate_plan plan with
      | nil => exact absurd hv hne
      | cons a l => rfl
    simp [validator_node, hplan, hfalse]

/-- A plan that validates cleanly: one `CREATE` in the default
namespace. -/
def c6_ok_plan : ExecutionPlan :=
  { description := "deploy web",
    operations := [{
      action := "CREATE",
      resource_type := "deployment",
      resource_name := some "web" }] }

/-- A workflow state carrying the clean plan and no errors. -/
def c6_ok_state : AutoOpsState :=
  { request_id := "req-6", original_request := "deploy web",
    execution_plan := some c6_ok_plan }

/-- C6 witness: the clean plan passes the validator node and proceeds
to Execute. -/
theorem claim6_amended_witness :
    should_proceed_with_execution (validator_node c6_ok_state) = "execute" :=
  (claim6_validation_characterization c6_ok_plan c6_ok_state).2.1
    rfl rfl (by decide)

/-- A task already terminal (completed) sitting in an available
store. -/
def c7_completed_task : TaskRec :=
  { task_id := "t7", request := "restart api", status := .completed }

/-- The Task Manager state holding the completed task. -/
def c7_state : TMState :=
  { store := Store.available [(taskKey "t7", c7_completed_task)] }

/-- C7 counterexample: cancelling a task that is already terminal
(completed) returns `true` — the code re-marks any loadable task as
cancelled — where the claim requires `false` for terminal tasks. -/
theorem claim7_counterexample :
    (get_task_status c7_state "t7").map (fun t => t.status) =
      some TaskStatus.completed ∧
    (cancel_task c7_state "t7" 9).1 = true := by
  refine ⟨rfl, rfl⟩

/-- C7 as amended: `cancel` returns `false` exactly when the task
cannot be loaded from the store; whenever the task loads — terminal or
not — it is marked cancelled with `completed_at` stamped and persisted,
any in-flight run under the id is interrupted, and `true` is
returned. -/
theorem claim7_cancel_characterization (st : TMState) (tid : String)
    (now : Nat) :
    ((cancel_task st tid now).1 = true ↔ load_task st.store tid ≠ none) ∧
    tid ∉ (cancel_task st tid now).2.running_tasks ∧
    (∀ t, load_task st.store tid = some t → t.task_id = tid →
      load_task (cancel_task st tid now).2.store tid =
        some { t with status := .cancelled, completed_at := some now }) := by
  refine ⟨?_, ?_, ?_⟩
  · cases h : load_task st.store tid with
    | some t => simp [cancel_task, h]
    | none => simp [cancel_task, h]
  · cases h : load_task st.store tid with
    | some t => simp [cancel_task, h, List.mem_filter]
    | none => simp [cancel_task, h, List.mem_filter]
  · intro t ht htid
    cases hst : st.store with
    | unavailable => rw [hst] at ht; exact absurd ht (by simp [load_task])
    | failing => rw [hst] at ht; exact absurd ht (by simp [load_task])
    | available kv =>
      rw [hst] at ht
      have hlk : kv.lookup (taskKey tid) = some t := by
        simpa [load_task] using ht
      simp [cancel_task, hst, load_task, hlk, persist_task, htid,
        List.lookup]

/-- C7 witness for the amended claim: cancelling the loadable completed
task rewrites it to cancelled in the store. -/
theorem claim7_amended_witness :
    load_task (cancel_task c7_state "t7" 9).2.store "t7" =
      some { c7_completed_task with
             status := .cancelled,
             completed_at := some 9 } :=
  (claim7_cancel_characterization c7_state "t7" 9).2.2
    c7_completed_task rfl rfl

/-- C8: when the workflow run for a task exceeds its timeout, the
awaited run is cancelled and `_execute_task` marks the task failed with
the timeout error recorded and `completed_at` stamped; the retry
counter is untouched and nothing re-enters the workflow — the timeout
is terminal. -/
theorem claim8_timeout_terminal (task : TaskRec) (t_start t_end : Nat) :
    (execute_task task RunOutcome.timeout t_start t_end).status =
      TaskStatus.failed ∧
    (execute_task task RunOutcome.timeout t_start t_end).error =
      some ("Task timed out after " ++ toString task.timeout ++
        " seconds") ∧
    (execute_task task RunOutcome.timeout t_start t_end).retry_count =
      task.retry_count ∧
    (execute_task task RunOutcome.timeout t_start t_end).completed_at =
      some t_end :=
  ⟨rfl, rfl, rfl, rfl⟩

/-- C9: executing a state with no execution plan marks the executor
failed and appends exactly the error "No execution plan available",
leaves the recorded results untouched, and calls no backend — the
outcome is the same for every backend. -/
theorem claim9_missing_plan_fails_without_backend (backend backend2 : Backend)
    (now : Nat) (order : List Nat) (state : AutoOpsState)
    (h : state.execution_plan = none) :
    ExecutorAgent.execute backend now order state =
      ({ state with executor_state :=
        { state.executor_state with status := .failed } }).add_error
        "No execution plan available" ∧
    (ExecutorAgent.execute backend now order state).execution_results =
      state.execution_results ∧
    (ExecutorAgent.execute backend now order state).errors =
      state.errors ++ ["No execution plan available"] ∧
    ExecutorAgent.execute backend now order state =
      ExecutorAgent.execute backend2 now order state := by
  have he : ∀ b : Backend, ExecutorAgent.execute b now order state =
      ({ state with executor_state :=
        { state.executor_state with status := .failed } }).add_error
        "No execution plan available" := by
    intro b
    unfold ExecutorAgent.execute
    rw [h]
  refine ⟨he backend, ?_, ?_, (he backend).trans (he backend2).symm⟩
  · rw [he backend]; rfl
  · rw [he backend]; rfl

/-- A freshly initialized workflow state, carrying no plan. -/
def c9_state : AutoOpsState :=
  { request_id := "req-9", original_request := "scale nginx" }

/-- C9 witness: the planless state gains exactly the one error. -/
theorem claim9_witness :
    (ExecutorAgent.execute backend0 0 [] c9_state).errors =
      c9_state.errors ++ ["No execution plan available"] :=
  (claim9_missing_plan_fails_without_backend backend0 backendFail 0 []
    c9_state rfl).2.2.1

/-- C10: with the durable store unavailable (no client) or failing on
every read, loading returns nothing, so `get_status` answers not-found
for every task id — including the id just returned by a successful
`submit`; no in-memory record backs status reads. -/
theorem claim10_unavailable_store_loses_tasks (st : TMState)
    (request : String) (p : TaskPriority) (tid qid : String)
    (tmo now : Nat)
    (h : st.store = Store.unavailable ∨ st.store = Store.failing) :
    get_task_status st qid = none ∧
    get_task_status (submit_task st request p tid tmo now).2
      (submit_task st request p tid tmo now).1 = none := by
  rcases h with h | h <;>
    simp [get_task_status, submit_task, load_task, persist_task, h]

/-- A Task Manager state whose Redis client never initialized. -/
def c10_state : TMState := { store := Store.unavailable }

/-- C10 witness: a status read right after a successful submit is
not-found when the store is unavailable. -/
theorem claim10_witness :
    get_task_status
      (submit_task c10_state "scale nginx to 5" TaskPriority.high
        "t10" 300 0).2
      (submit_task c10_state "scale nginx to 5" TaskPriority.high
        "t10" 300 0).1 = none :=
  (claim10_unavailable_store_loses_tasks c10_state "scale nginx to 5"
    TaskPriority.high "t10" "t10" 300 0 (Or.inl rfl)).2

end AutoOps
